import Mathlib

/-!
# LangFord — verification of the normalization / dispatch core

A shallow embedding, in Lean 4, of the argument-normalization primitives,
the date-expression resolver, the calendar/mail/news/weather operations and
the supervisor dispatch of the LangFord personal-assistant backend, together
with theorems checking the behavioural properties stated in its design
notes.  Pure Python functions become Lean functions; calls into external
collaborators (network fetches, the `dateparser` library, the IANA timezone
database) become explicit functional parameters; fallible steps return
`Option` or `Except`.
-/

namespace LangFord

/-! ## Loosely-typed argument values

Operations receive arguments produced by an uncontrolled natural-language
caller.  `PyVal` models the dynamic values that reach the coercion helpers:
integers, floats (finite ones as rationals, plus a marker for the
non-finite floats on which Python's `int()` raises), booleans, strings,
`None`, and anything else. -/

inductive PyVal where
  | vint (n : Int)
  | vfloat (q : Rat)
  | vfloatNonFinite
  | vbool (b : Bool)
  | vstr (s : String)
  | vnone
  | vother
deriving DecidableEq, Repr

/-- Truncation toward zero, the semantics of Python's `int()` on a finite
float. -/
def ratTrunc (q : Rat) : Int :=
  if 0 ≤ q then ⌊q⌋ else ⌈q⌉

/-- Python's `int(value)` on a non-string value: succeeds on ints, finite
floats and booleans, raises (here: `Except.error`) on everything else. -/
def pyIntOfVal : PyVal → Except Unit Int
  | .vint n => .ok n
  | .vfloat q => .ok (ratTrunc q)
  | .vbool b => .ok (if b then 1 else 0)
  | _ => .error ()

/-- Numeric value of a string of ASCII digits. -/
def digitsToNat (l : List Char) : Nat :=
  l.foldl (fun acc c => acc * 10 + (c.toNat - 48)) 0

/-- The digit run kept by `"".join(filter(str.isdigit, value))`.
Only ASCII digits are modelled; the exotic Unicode digits accepted by
Python's `str.isdigit` are outside the modelled input set. -/
def digitRun (s : String) : List Char :=
  s.toList.filter Char.isDigit

/-- Python's `str.lower()` (character-by-character; the ASCII letters the
keyword comparisons involve). -/
def pyLower (s : String) : String :=
  String.mk (s.toList.map Char.toLower)

def stripChars (l : List Char) : List Char :=
  ((l.dropWhile Char.isWhitespace).reverse.dropWhile Char.isWhitespace).reverse

/-- Python's `str.strip()`: whitespace removed from both ends. -/
def pyStrip (s : String) : String :=
  String.mk (stripChars s.toList)

def replaceZChars : List Char → List Char
  | [] => []
  | c :: cs =>
      if c = 'Z' then '+' :: '0' :: '0' :: ':' :: '0' :: '0' :: replaceZChars cs
      else c :: replaceZChars cs

/-- `s.replace("Z", "+00:00")`: every occurrence rewritten. -/
def replaceZ (s : String) : String :=
  String.mk (replaceZChars s.toList)

/-- `check_mails._to_int_with_default` (src/tools/email/check_mails.py):
coerce common LLM outputs into an int, with a safe default.  A string is
reduced to its digit run (`int` of the kept digits, default when none
remain); any other value goes through `int(value)`, the default covering a
raised exception. -/
def _to_int_with_default (value : PyVal) (default : Int) : Int :=
  match value with
  | .vstr s =>
      let digits := digitRun s
      if digits.isEmpty then default else (digitsToNat digits : Int)
  | v =>
      match pyIntOfVal v with
      | .ok n => n
      | .error _ => default

/-- `create_events._to_int` (src/tools/calendar/create_events.py): the same
coercion, re-declared in the calendar module. -/
def _to_int (value : PyVal) (default : Int) : Int :=
  match value with
  | .vstr s =>
      let digits := digitRun s
      if digits.isEmpty then default else (digitsToNat digits : Int)
  | v =>
      match pyIntOfVal v with
      | .ok n => n
      | .error _ => default

/-- The integer-like coercion exactly as the specification words it: an
already-numeric value is truncated to an integer; a string keeps its digit
run and parses it, the default covering a digit-free string; every other
value falls back to the default.  (Stated separately from the source
embeddings so the two can be compared.) -/
def intCoercionSpec (value : PyVal) (default : Int) : Int :=
  match value with
  | .vint n => n
  | .vfloat q => ratTrunc q
  | .vbool b => if b then 1 else 0
  | .vstr s =>
      let digits := digitRun s
      if digits.isEmpty then default else (digitsToNat digits : Int)
  | _ => default

/-- `create_events._to_bool` (src/tools/calendar/create_events.py): a
boolean passes through, a string is true iff its trimmed, case-folded form
is one of the truthy words, anything else coerces by Python truthiness. -/
def _to_bool : PyVal → Bool
  | .vbool b => b
  | .vstr s => (pyLower (pyStrip s) = "true") || (pyLower (pyStrip s) = "1") ||
      (pyLower (pyStrip s) = "yes") || (pyLower (pyStrip s) = "y") || (pyLower (pyStrip s) = "on")
  | .vint n => n ≠ 0
  | .vfloat q => q ≠ 0
  | .vfloatNonFinite => true
  | .vnone => false
  | .vother => true

/-! ## Civil-calendar arithmetic

Day numbering of the proleptic Gregorian calendar (days since 1970-01-01),
the standard civil-from-days / days-from-civil pair, used to give meaning
to `timedelta(days=1)` in the calendar operations. -/

structure Date where
  year : Int
  month : Int
  day : Int
deriving DecidableEq, Repr

/-- Day number of a civil date (1970-01-01 is day 0). -/
def daysFromCivil (dt : Date) : Int :=
  let y := dt.year - (if dt.month ≤ 2 then 1 else 0)
  let era := Int.fdiv y 400
  let yoe := y - era * 400
  let mp := Int.emod (dt.month + 9) 12
  let doy := Int.fdiv (153 * mp + 2) 5 + dt.day - 1
  let doe := yoe * 365 + Int.fdiv yoe 4 - Int.fdiv yoe 100 + doy
  era * 146097 + doe - 719468

/-- Civil date of a day number (inverse of `daysFromCivil`). -/
def civilFromDays (z : Int) : Date :=
  let z' := z + 719468
  let era := Int.fdiv z' 146097
  let doe := z' - era * 146097
  let yoe := Int.fdiv (doe - Int.fdiv doe 1460 + Int.fdiv doe 36524 - Int.fdiv doe 146096) 365
  let y := yoe + era * 400
  let doy := doe - (365 * yoe + Int.fdiv yoe 4 - Int.fdiv yoe 100)
  let mp := Int.fdiv (5 * doy + 2) 153
  let d := doy - Int.fdiv (153 * mp + 2) 5 + 1
  let m := mp + (if mp < 10 then 3 else -9)
  ⟨y + (if m ≤ 2 then 1 else 0), m, d⟩

/-- `date + timedelta(days=n)`. -/
def Date.addDays (dt : Date) (n : Int) : Date :=
  civilFromDays (daysFromCivil dt + n)

def isLeapYear (y : Int) : Bool :=
  Int.emod y 4 = 0 && (Int.emod y 100 ≠ 0 || Int.emod y 400 = 0)

def daysInMonth (y m : Int) : Int :=
  if m = 2 then (if isLeapYear y then 29 else 28)
  else if m = 4 || m = 6 || m = 9 || m = 11 then 30
  else 31

/-- Range validity enforced by Python's `date` constructor. -/
def Date.valid (dt : Date) : Bool :=
  1 ≤ dt.year && dt.year ≤ 9999 && 1 ≤ dt.month && dt.month ≤ 12 &&
    1 ≤ dt.day && dt.day ≤ daysInMonth dt.year dt.month

/-! ## Aware and naive datetimes

A Python `datetime`: a civil date, a time of day, and an optional fixed
UTC offset in minutes (`none` = timezone-naive).  Named `IANA` timezones
are modelled as fixed offsets; the operations under study never depend on
daylight-saving transitions. -/

structure PyDateTime where
  date : Date
  hour : Int
  minute : Int
  second : Int
  utcOffsetMinutes : Option Int
deriving DecidableEq, Repr

def PyDateTime.aware (dt : PyDateTime) : Bool :=
  dt.utcOffsetMinutes.isSome

/-- `datetime + timedelta(minutes=n)`: wall-clock shift, offset kept. -/
def PyDateTime.addMinutes (dt : PyDateTime) (n : Int) : PyDateTime :=
  let total := dt.hour * 60 + dt.minute + n
  let dayShift := Int.fdiv total 1440
  let rem := total - dayShift * 1440
  { dt with
      date := dt.date.addDays dayShift
      hour := Int.fdiv rem 60
      minute := Int.emod rem 60 }

/-- `datetime + timedelta(days=n)`. -/
def PyDateTime.addDays (dt : PyDateTime) (n : Int) : PyDateTime :=
  { dt with date := dt.date.addDays n }

/-- `datetime.astimezone(tz)` for a fixed-offset target timezone.  A naive
datetime is left unchanged (the one call site guards the conversion with a
best-effort handler and the values reaching it are timezone-aware). -/
def PyDateTime.astimezone (dt : PyDateTime) (newOffset : Int) : PyDateTime :=
  match dt.utcOffsetMinutes with
  | none => dt
  | some o => { dt.addMinutes (newOffset - o) with utcOffsetMinutes := some newOffset }

/-- `datetime.replace(tzinfo=tz)`: reinterpret the same wall-clock reading
in the given fixed offset. -/
def PyDateTime.replaceTz (dt : PyDateTime) (newOffset : Option Int) : PyDateTime :=
  { dt with utcOffsetMinutes := newOffset }

/-- Seconds since the epoch of an aware datetime; the quantity by which
Python orders aware datetimes. -/
def PyDateTime.epochSeconds (dt : PyDateTime) : Int :=
  daysFromCivil dt.date * 86400 + dt.hour * 3600 + dt.minute * 60 + dt.second -
    (dt.utcOffsetMinutes.getD 0) * 60

/-! ## ISO-8601 formatting and parsing -/

/-- The ASCII digit character of `n % 10`. -/
def digit (n : Nat) : Char := Char.ofNat (48 + n % 10)

/-- Two-digit zero-padded field (`%02d` on the in-range values the datetime
invariants allow). -/
def pad2 (n : Nat) : String := String.mk [digit (n / 10), digit n]

/-- Four-digit zero-padded field. -/
def pad4 (n : Nat) : String :=
  String.mk [digit (n / 1000), digit (n / 100), digit (n / 10), digit n]

/-- `date.isoformat()`: `YYYY-MM-DD`. -/
def Date.iso (dt : Date) : String :=
  pad4 dt.year.toNat ++ "-" ++ pad2 dt.month.toNat ++ "-" ++ pad2 dt.day.toNat

/-- The `±HH:MM` suffix `datetime.isoformat` prints for an aware value. -/
def offsetSuffix : Option Int → String
  | none => ""
  | some o =>
      (if o < 0 then "-" else "+") ++ pad2 (o.natAbs / 60) ++ ":" ++ pad2 (o.natAbs % 60)

/-- `datetime.isoformat(timespec="seconds")` (also plain `isoformat()` when
the microsecond field is zero, as it is everywhere in this code). -/
def PyDateTime.isoSeconds (dt : PyDateTime) : String :=
  dt.date.iso ++ "T" ++ pad2 dt.hour.toNat ++ ":" ++ pad2 dt.minute.toNat ++ ":" ++
    pad2 dt.second.toNat ++ offsetSuffix dt.utcOffsetMinutes

/-- `strftime("%H:%M")`. -/
def PyDateTime.hhmm (dt : PyDateTime) : String :=
  pad2 dt.hour.toNat ++ ":" ++ pad2 dt.minute.toNat

def charDigitVal (c : Char) : Nat := c.toNat - 48

/-- `date.fromisoformat` on the `YYYY-MM-DD` shape, with Python's range
validation. -/
def parseIsoDate (s : String) : Option Date :=
  match s.toList with
  | [y1, y2, y3, y4, '-', m1, m2, '-', d1, d2] =>
      if [y1, y2, y3, y4, m1, m2, d1, d2].all Char.isDigit then
        let y : Int := (digitsToNat [y1, y2, y3, y4] : Int)
        let m : Int := (digitsToNat [m1, m2] : Int)
        let d : Int := (digitsToNat [d1, d2] : Int)
        let dt : Date := ⟨y, m, d⟩
        if dt.valid then some dt else none
      else none
  | _ => none

/-- Hour/minute/second/offset part of a datetime string: `HH:MM`, optional
`:SS`, optional `Z` or `±HH:MM` offset.  (Fractional seconds and the
compact offset forms never occur in the modelled inputs.) -/
def parseTimePart (l : List Char) : Option (Int × Int × Int × Option Int) :=
  let parseOffset : List Char → Option (Option Int) := fun rest =>
    match rest with
    | [] => some none
    | ['Z'] => some (some 0)
    | [sign, o1, o2, ':', o3, o4] =>
        if (sign = '+' || sign = '-') && [o1, o2, o3, o4].all Char.isDigit then
          let oh := digitsToNat [o1, o2]
          let om := digitsToNat [o3, o4]
          if oh < 24 && om < 60 then
            let mag : Int := (oh : Int) * 60 + (om : Int)
            some (some (if sign = '-' then -mag else mag))
          else none
        else none
    | _ => none
  match l with
  | h1 :: h2 :: ':' :: m1 :: m2 :: rest =>
      if [h1, h2, m1, m2].all Char.isDigit then
        let h := digitsToNat [h1, h2]
        let mi := digitsToNat [m1, m2]
        if h < 24 && mi < 60 then
          match rest with
          | ':' :: s1 :: s2 :: rest2 =>
              if [s1, s2].all Char.isDigit then
                let se := digitsToNat [s1, s2]
                if se < 60 then
                  (parseOffset rest2).map (fun o => ((h : Int), (mi : Int), (se : Int), o))
                else none
              else none
          | other => (parseOffset other).map (fun o => ((h : Int), (mi : Int), (0 : Int), o))
        else none
      else none
  | _ => none

/-- `datetime.fromisoformat` on the shapes that occur here: a bare date
(parsed as naive midnight) or a date, a `T`/space separator, and a time
with optional seconds and offset. -/
def parseIsoDateTime (s : String) : Option PyDateTime :=
  let l := s.toList
  match parseIsoDate (String.mk (l.take 10)) with
  | none => none
  | some d =>
      match l.drop 10 with
      | [] => some ⟨d, 0, 0, 0, none⟩
      | sep :: rest =>
          if sep = 'T' || sep = ' ' then
            (parseTimePart rest).map (fun (h, mi, se, o) => ⟨d, h, mi, se, o⟩)
          else none

/-! ## Date Expression Resolver

`resolve_date_expression` (src/tools/calendar/resolve_date_expression.py).
Its external collaborators — the timezone database behind `ZoneInfo`, the
anchor parser `datetime.fromisoformat`, the clock `datetime.now`, and the
`dateparser` library — enter as the fields of `ResolverEnv`. -/

structure ResolverEnv where
  /-- `ZoneInfo(name)`: the named timezone as a fixed offset in minutes, or
  the message of the exception the constructor raises. -/
  zoneInfo : String → Except String Int
  /-- `datetime.fromisoformat` applied to the caller-supplied anchor. -/
  fromIso : String → Except String PyDateTime
  /-- `datetime.now(tz)`. -/
  nowIn : Int → PyDateTime
  /-- `dateparser.parse(expr, settings={RELATIVE_BASE, ...})`: `none` when
  the expression cannot be interpreted. -/
  dateparse : String → PyDateTime → Option PyDateTime

/-- The result dictionary of the resolver.  Fields absent from a given
Python dict are `none`. -/
structure ResolveResult where
  ok : Bool
  error : Option String
  iso_datetime : Option String
  date : Option String
  time : Option String
  timezone : String
  original_expression : String
deriving DecidableEq, Repr

/-- The reference-instant step of the resolver: a truthy anchor is parsed
and, if naive, stamped with the target timezone, if aware, converted into
it; otherwise the current instant there.  A failed parse surfaces as the
exception text. -/
def resolverAnchor (env : ResolverEnv) (now_iso : Option String) (tz : Int) :
    Except String PyDateTime :=
  match now_iso with
  | some s =>
      if s ≠ "" then
        match env.fromIso s with
        | .error exc => .error exc
        | .ok b => .ok (if b.aware then b.astimezone tz else b.replaceTz (some tz))
      else .ok (env.nowIn tz)
  | none => .ok (env.nowIn tz)

def resolve_date_expression (env : ResolverEnv) (expression : String)
    (now_iso : Option String) (timezone : String := "Europe/Vienna") : ResolveResult :=
  if pyStrip expression = "" then
    { ok := false, error := some "empty_expression", iso_datetime := none,
      date := none, time := none, timezone := timezone,
      original_expression := expression }
  else
    let expression_str := pyStrip expression
    match env.zoneInfo timezone with
    | .error exc =>
        { ok := false, error := some ("invalid_timezone: " ++ exc),
          iso_datetime := none, date := none, time := none,
          timezone := timezone, original_expression := expression_str }
    | .ok tz =>
        match resolverAnchor env now_iso tz with
        | .error exc =>
            { ok := false, error := some ("invalid_now_iso: " ++ exc),
              iso_datetime := none, date := none, time := none,
              timezone := timezone, original_expression := expression_str }
        | .ok base_dt =>
            match env.dateparse expression_str base_dt with
            | none =>
                { ok := false, error := some "could_not_parse",
                  iso_datetime := none, date := none, time := none,
                  timezone := timezone, original_expression := expression_str }
            | some parsed0 =>
                let parsed := parsed0.astimezone tz
                { ok := true, error := none,
                  iso_datetime := some parsed.isoSeconds,
                  date := some parsed.date.iso,
                  time := some parsed.hhmm,
                  timezone := timezone,
                  original_expression := expression_str }

/-! ## Duck-typed date arguments

Calendar and weather operations accept either a raw string or a structured
object handed over verbatim from another operation's output. -/

/-- A value held under some key of such a structured object. -/
inductive DictVal where
  | dstr (s : String)
  | dnonstr
deriving DecidableEq, Repr

/-- The string-or-structured-object union. -/
inductive DateInput where
  | ofString (s : String)
  | ofDict (entries : List (String × DictVal))
deriving DecidableEq, Repr

/-- The key-probing loop shared by the normalizers: the value of the first
key in `keys` that is bound to a string with non-blank content. -/
def firstUsableKey (entries : List (String × DictVal)) : List String → Option String
  | [] => none
  | k :: ks =>
      match entries.lookup k with
      | some (.dstr v) => if pyStrip v ≠ "" then some v else firstUsableKey entries ks
      | _ => firstUsableKey entries ks

/-- Characters of `s` after its first occurrence of `c` (`none` when `c`
does not occur). -/
def afterChar (c : Char) : List Char → Option (List Char)
  | [] => none
  | x :: xs => if x = c then some xs else afterChar c xs

/-- Characters of `s` before its first occurrence of `c` (all of `s` when
`c` does not occur); `s.split(c, 1)[0]`. -/
def beforeChar (c : Char) : List Char → List Char
  | [] => []
  | x :: xs => if x = c then [] else x :: beforeChar c xs

/-- `raw.split("T", 1)[0]` guarded by `"T" in raw`. -/
def takeBeforeT (s : String) : String :=
  String.mk (beforeChar 'T' s.toList)

/-- `check_events._normalize_date_input` (src/tools/calendar/check_events.py):
unwrap a structured object through the ordered key preference
`date, iso_datetime, datetime, iso`, trim, reject blank, and keep only the
date part of a `T`-separated datetime. -/
def _normalize_date_input : Option DateInput → Option String
  | none => none
  | some raw =>
      let unwrapped : Option String :=
        match raw with
        | .ofDict entries => firstUsableKey entries ["date", "iso_datetime", "datetime", "iso"]
        | .ofString s => some s
      match unwrapped with
      | none => none
      | some s =>
          let t := pyStrip s
          if t = "" then none else some (takeBeforeT t)

/-! ## Calendar read operation -/

/-- What `check_events` (src/tools/calendar/check_events.py) does up to the
upstream request: either an error item or the `timeMin`/`timeMax` query
window it sends, kept together with the two boundary datetimes that produce
those strings. -/
inductive CheckEventsOutcome where
  | failure (message : String)
  | request (timeMin timeMax : String) (startDt endDt : PyDateTime)
deriving DecidableEq, Repr

def check_events (date : Option DateInput) (end_date : Option DateInput) : CheckEventsOutcome :=
  let start_str := _normalize_date_input date
  let end_str := match end_date with
    | none => none
    | some e => _normalize_date_input (some e)
  match start_str with
  | none => .failure "Invalid or empty start date"
  | some s =>
      match parseIsoDateTime s with
      | none => .failure "Could not parse start date"
      | some sd =>
          let start_dt := sd.replaceTz (some 0)
          match end_str with
          | some es =>
              match parseIsoDateTime es with
              | none => .failure "Could not parse end date"
              | some ed =>
                  let end_dt := (ed.replaceTz (some 0)).addDays 1
                  .request start_dt.isoSeconds end_dt.isoSeconds start_dt end_dt
          | none =>
              let end_dt := start_dt.addDays 1
              .request start_dt.isoSeconds end_dt.isoSeconds start_dt end_dt

/-! ## Calendar write operation -/

/-- `create_events._extract_datetime_str` (src/tools/calendar/create_events.py):
unwrap through the ordered key preference `iso_datetime, dateTime,
datetime, start, date` (empty string when nothing usable), then trim. -/
def _extract_datetime_str (raw : DateInput) : String :=
  let s :=
    match raw with
    | .ofDict entries =>
        (firstUsableKey entries ["iso_datetime", "dateTime", "datetime", "start", "date"]).getD ""
    | .ofString s => s
  pyStrip s

/-- `create_events._extract_date_str`: the datetime string reduced to its
date part. -/
def _extract_date_str (raw : DateInput) : String :=
  takeBeforeT (_extract_datetime_str raw)

def CALENDAR_TIMEZONE : String := "Europe/Vienna"

/-- One boundary of the event-creation request body: `{"date": ...}` for
all-day events, `{"dateTime": ..., "timeZone": ...}` for timed events. -/
inductive EventTimePayload where
  | onDate (date : String)
  | atDateTime (dateTime : String) (timeZone : String)
deriving DecidableEq, Repr

/-- What `create_events` does up to the upstream POST: an error dictionary
or the start/end boundaries of the request body. -/
inductive CreateEventsOutcome where
  | failure (message : String)
  | request (startPayload endPayload : EventTimePayload)
deriving DecidableEq, Repr

/-- `create_events` (src/tools/calendar/create_events.py), its
date-normalization stage.  `calTzOffset` is the fixed offset standing for
the configured `CALENDAR_TIMEZONE`; `summary`/`description`/`location`
decorate the request body without influencing the boundaries and are
omitted.  A `fromisoformat` failure is caught by the surrounding handler
and reported as a normalization error. -/
def create_events (calTzOffset : Int) (start_date : DateInput)
    (end_date : Option DateInput) (all_day : PyVal) (duration_minutes : PyVal) :
    CreateEventsOutcome :=
  let all_day_flag := _to_bool all_day
  let duration_min_int := _to_int duration_minutes 60
  if all_day_flag then
    let start_str := _extract_date_str start_date
    if start_str = "" then .failure "Invalid start_date for all-day event"
    else
      match parseIsoDateTime start_str with
      | none => .failure "Failed to normalize event dates"
      | some sdt =>
          let start_date_obj := sdt.date
          match end_date with
          | some e =>
              let end_str := _extract_date_str e
              if end_str = "" then .failure "Invalid end_date for all-day event"
              else
                match parseIsoDateTime end_str with
                | none => .failure "Failed to normalize event dates"
                | some edt =>
                    .request (.onDate start_date_obj.iso) (.onDate edt.date.iso)
          | none =>
              .request (.onDate start_date_obj.iso) (.onDate (start_date_obj.addDays 1).iso)
  else
    let start_str := _extract_datetime_str start_date
    if start_str = "" then .failure "Invalid start_date for timed event"
    else
      match parseIsoDateTime start_str with
      | none => .failure "Failed to normalize event dates"
      | some sd0 =>
          let start_dt := if sd0.aware then sd0.astimezone calTzOffset
            else sd0.replaceTz (some calTzOffset)
          match end_date with
          | some e =>
              let end_str := _extract_datetime_str e
              if end_str = "" then .failure "Invalid end_date for timed event"
              else
                match parseIsoDateTime end_str with
                | none => .failure "Failed to normalize event dates"
                | some ed0 =>
                    let end_dt := if ed0.aware then ed0.astimezone calTzOffset
                      else ed0.replaceTz (some calTzOffset)
                    .request (.atDateTime start_dt.isoSeconds CALENDAR_TIMEZONE)
                      (.atDateTime end_dt.isoSeconds CALENDAR_TIMEZONE)
          | none =>
              let end_dt := start_dt.addMinutes duration_min_int
              .request (.atDateTime start_dt.isoSeconds CALENDAR_TIMEZONE)
                (.atDateTime end_dt.isoSeconds CALENDAR_TIMEZONE)

/-! ## Weather time-of-day extraction -/

/-- Python's `int(str)` on an arbitrary string: optional surrounding
whitespace, an optional sign, then a non-empty digit run; anything else
raises (`none`).  PEP-515 underscore grouping is outside the modelled
input set. -/
def pyIntOfString (s : String) : Option Int :=
  match (pyStrip s).toList with
  | '+' :: rest =>
      if !rest.isEmpty && rest.all Char.isDigit then some (digitsToNat rest : Int) else none
  | '-' :: rest =>
      if !rest.isEmpty && rest.all Char.isDigit then some (-(digitsToNat rest : Int)) else none
  | l =>
      if !l.isEmpty && l.all Char.isDigit then some (digitsToNat l : Int) else none

namespace Weather

/-- `check_weather._extract_hour` (src/tools/weather/check_weather.py):
unwrap a structured object through the ordered key preference
`time, iso_datetime, datetime, iso`, take the substring after the first
`T`, and parse the leading colon-separated field with `int`; every failure
yields `none`. -/
def _extract_hour : Option DateInput → Option Int
  | none => none
  | some raw =>
      let s :=
        match raw with
        | .ofDict entries =>
            (firstUsableKey entries ["time", "iso_datetime", "datetime", "iso"]).getD ""
        | .ofString s => s
      let t := pyStrip s
      if t = "" then none
      else
        let u :=
          match afterChar 'T' t.toList with
          | some rest => String.mk rest
          | none => t
        pyIntOfString (String.mk (beforeChar ':' u.toList))

end Weather

/-! ## Mail scoring operation -/

/-- The `emailAddress` object under a Graph message's `from` field. -/
structure EmailAddr where
  name : Option String
  address : Option String
deriving DecidableEq, Repr

/-- A message of the fetched Graph batch; fields the upstream may omit are
optional (`msg.get`). -/
structure GraphMessage where
  subject : Option String
  sender : Option EmailAddr
  receivedDateTime : Option String
  importance : Option String
  isRead : Option Bool
  inferenceClassification : Option String
  bodyPreview : Option String
  webLink : Option String
deriving DecidableEq, Repr

/-- `check_mails.score_message`: 3 for high importance, 2 for a focused
inference classification, 1 for unread (absence of `isRead` counting as
read). -/
def score_message (msg : GraphMessage) : Int :=
  (if msg.importance = some "high" then 3 else 0) +
    (if msg.inferenceClassification = some "focused" then 2 else 0) +
    (if msg.isRead.getD true = false then 1 else 0)

/-- `check_mails.parse_dt`: Graph's trailing `Z` rewritten to `+00:00`,
then `datetime.fromisoformat`. -/
def parse_dt (s : String) : Option PyDateTime :=
  parseIsoDateTime (replaceZ s)

/-- An element of the returned `emails` list. -/
structure EmailOut where
  subject : Option String
  sender_name : Option String
  sender_address : Option String
  receivedDateTime : String
  importance : Option String
  isRead : Option Bool
  inferenceClassification : Option String
  preview : Option String
  webLink : Option String
  score : Int
deriving DecidableEq, Repr

/-- The filtering loop of `check_mails`: drop messages without a (parsable)
timestamp, drop those received before the cutoff, drop non-positive scores,
keep the rest as output records. -/
def buildImportant (nowEpoch daysBackInt : Int) (messages : List GraphMessage) :
    List EmailOut :=
  let cutoff := nowEpoch - daysBackInt * 86400
  messages.filterMap fun msg =>
    match msg.receivedDateTime with
    | none => none
    | some received_str =>
        if received_str = "" then none
        else
          match parse_dt received_str with
          | none => none
          | some received_dt =>
              if received_dt.epochSeconds < cutoff then none
              else
                let s := score_message msg
                if s ≤ 0 then none
                else some
                  { subject := msg.subject
                    sender_name := (msg.sender.map (·.name)).getD none
                    sender_address := (msg.sender.map (·.address)).getD none
                    receivedDateTime := received_str
                    importance := msg.importance
                    isRead := msg.isRead
                    inferenceClassification := msg.inferenceClassification
                    preview := msg.bodyPreview
                    webLink := msg.webLink
                    score := s }

/-- The sort key `(-m["score"], m["receivedDateTime"] or "")`. -/
def sortKey (m : EmailOut) : Int × String :=
  (-m.score, if m.receivedDateTime = "" then "" else m.receivedDateTime)

/-- Code-point lexicographic order on character lists, Python's `<` on
strings. -/
def charListLt : List Char → List Char → Bool
  | [], [] => false
  | [], _ :: _ => true
  | _ :: _, [] => false
  | a :: as, b :: bs => if a < b then true else if b < a then false else charListLt as bs

def strLt (a b : String) : Bool :=
  charListLt a.toList b.toList

/-- Non-strict lexicographic comparison of sort keys, matching Python's
tuple/string comparison (code-point order on strings). -/
def keyLe (a b : Int × String) : Bool :=
  a.1 < b.1 || (a.1 = b.1 && (strLt a.2 b.2 || a.2 = b.2))

/-- Stable insertion of one element behind the already-placed elements of
equal key. -/
def insertByKey (x : EmailOut) : List EmailOut → List EmailOut
  | [] => [x]
  | y :: ys => if keyLe (sortKey y) (sortKey x) then y :: insertByKey x ys else x :: y :: ys

/-- `important.sort(key=...)`: a stable ascending sort; any stable sort
computes the same list as Python's. -/
def sortImportant (l : List EmailOut) : List EmailOut :=
  l.foldl (fun acc x => insertByKey x acc) []

/-- `important[:k]` with a possibly negative Python slice bound. -/
def pySlicePrefix (k : Int) (l : List EmailOut) : List EmailOut :=
  if 0 ≤ k then l.take k.toNat
  else l.take (l.length - min l.length k.natAbs)

/-- The result dictionary of `check_mails`. -/
structure CheckMailsResult where
  total_checked : Nat
  total_returned : Nat
  emails : List EmailOut
  error : Option String
deriving DecidableEq, Repr

/-- `check_mails` (src/tools/email/check_mails.py).  `fetch` stands for the
Graph batch request (its `value` list, or the exception text of a failed
fetch); `nowEpoch` is `datetime.now(timezone.utc)` in epoch seconds.  The
token acquisition preceding the fetch is a configuration-class collaborator
outside the embedded contract. -/
def check_mails (fetch : Except String (List GraphMessage)) (nowEpoch : Int)
    (max_emails : PyVal := .vint 8) (days_back : PyVal := .vint 3) : CheckMailsResult :=
  let max_emails_int := _to_int_with_default max_emails 8
  let days_back_int := _to_int_with_default days_back 3
  match fetch with
  | .error e =>
      { total_checked := 0, total_returned := 0, emails := [],
        error := some ("Failed to fetch emails: " ++ e) }
  | .ok messages =>
      let important := sortImportant (buildImportant nowEpoch days_back_int messages)
      let selected := pySlicePrefix max_emails_int important
      { total_checked := messages.length
        total_returned := selected.length
        emails := selected
        error := none }

/-! ## News aggregation -/

/-- A headline record as shaped by the fetch helpers. -/
structure NewsItem where
  title : Option String
  link : Option String
  snippet : Option String
  date : Option String
  source : Option String
deriving DecidableEq, Repr

/-- The `{ok, text | error}` payload of `_fetch_article`. -/
structure ArticleOut where
  ok : Bool
  payload : String
deriving DecidableEq, Repr

/-- External collaborators of `news_report`: the Serper news search, the
Google News RSS fetch, and the article fetcher — each either a value or the
text of the exception it raised. -/
structure NewsEnv where
  serperNews : String → Int → Except String (List NewsItem)
  googleRss : Int → Except String (List NewsItem)
  fetchArticle : String → Int → Except String ArticleOut

/-- The result dictionary of `news_report`, one constructor per `mode`. -/
inductive NewsOutcome where
  | articleByUrl (url : String) (article : ArticleOut)
  | articleByQuery (query : String) (matched_title : Option String)
      (url : Option String) (source : Option String) (article : ArticleOut)
  | articleSearchFailed (query : String) (reason : String) (detail : Option String)
  | newsSearch (query : String) (items : List NewsItem) (error : Option String)
  | dailyBrief (location : Option String) (world localItems : List NewsItem)
      (errors : List (String × String))
deriving DecidableEq, Repr

/-- Python string truthiness on an optional argument. -/
def truthy : Option String → Bool
  | none => false
  | some s => s ≠ ""

/-- The local-section query of the daily brief:
`f"{location} news" if location else "local news"`. -/
def localNewsQuery : Option String → String
  | some loc => if loc ≠ "" then loc ++ " news" else "local news"
  | none => "local news"

/-- `news_report` (src/tools/news/get_news.py).  The lenient argument
coercions inlined there repeat the digit-run and truthy-word rules embedded
as `_to_int` and `_to_bool`.  Mode order follows the source: explicit URL,
article search from a query, topic search, and the default world+local
daily brief where each section degrades independently into the per-section
error map. -/
def news_report (env : NewsEnv) (query : Option String) (location : Option String)
    (url : Option String) (world_num : PyVal := .vint 5) (local_num : PyVal := .vint 5)
    (max_chars : PyVal := .vint 12000) (as_article : PyVal := .vbool false) : NewsOutcome :=
  let world_num_int := _to_int world_num 5
  let local_num_int := _to_int local_num 5
  let max_chars_int := _to_int max_chars 12000
  let as_article_norm := _to_bool as_article
  let daily : NewsOutcome :=
    let world := env.googleRss world_num_int
    let localr := env.serperNews (localNewsQuery location) local_num_int
    .dailyBrief location
      (match world with | .ok l => l | .error _ => [])
      (match localr with | .ok l => l | .error _ => [])
      ((match world with | .error e => [("world", e)] | .ok _ => []) ++
        (match localr with | .error e => [("local", e)] | .ok _ => []))
  let afterUrl : NewsOutcome :=
    match query with
    | some q =>
        if q = "" then daily
        else if as_article_norm then
          match env.serperNews q 3 with
          | .error e => .articleSearchFailed q "serper_error" (some e)
          | .ok [] => .articleSearchFailed q "no_results" none
          | .ok (best :: _) =>
              match best.link with
              | some link =>
                  if link ≠ "" then
                    match env.fetchArticle link max_chars_int with
                    | .error e =>
                        .articleByQuery q best.title (some link) best.source
                          ⟨false, "fetch_failed: " ++ e⟩
                    | .ok a => .articleByQuery q best.title (some link) best.source a
                  else
                    .articleByQuery q best.title (some link) best.source
                      ⟨false, "no_link_in_result"⟩
              | none =>
                  .articleByQuery q best.title none best.source ⟨false, "no_link_in_result"⟩
        else
          match env.serperNews q world_num_int with
          | .error e => .newsSearch q [] (some ("topic_search_failed: " ++ e))
          | .ok items => .newsSearch q items none
    | none => daily
  match url with
  | some u =>
      if u ≠ "" then
        match env.fetchArticle u max_chars_int with
        | .error e => .articleByUrl u ⟨false, "fetch_failed: " ++ e⟩
        | .ok article => .articleByUrl u article
      else afterUrl
  | none => afterUrl

/-! ## Supervisor dispatch

Two dispatchers coexist in the repository: the Langford service
(`src/core/langford_service.py` driven by `src/cli_langford.py`) and the
legacy repl (`src/agent.py`). -/

/-- The canned brief request `run_langford` substitutes for the keyword. -/
def briefQuery : String := "Please provide my full morning executive brief for today."

/-- `max_steps` of the butler agent built by `init_langford`. -/
def butlerMaxSteps : Nat := 8

/-- One `ToolCallingAgent.run` invocation of the butler. -/
structure ButlerRun where
  query : String
  reset : Bool
  maxSteps : Nat
deriving DecidableEq, Repr

/-- `langford_service.run_langford`: the stripped message, compared
case-insensitively against `brief`, selects either the canned elevated
request with a session reset or a plain forwarding without one. -/
def run_langford (message : String) : ButlerRun :=
  let msg := pyStrip message
  if pyLower msg = "brief" then ⟨briefQuery, true, butlerMaxSteps⟩
  else ⟨msg, false, butlerMaxSteps⟩

def exitKeywords : List String := ["exit", "quit", "q"]

/-- One iteration of `cli_langford.repl` on a non-empty stripped line:
`none` when an exit keyword ends the loop, otherwise the butler invocation
performed via `run_langford`. -/
def cliTurn (user_msg : String) : Option ButlerRun :=
  if pyLower user_msg ∈ exitKeywords then none
  else some (run_langford user_msg)

/-- Default step budget of `create_agent` (src/agent.py). -/
def defaultMaxStep : Nat := 6

/-- The elevated budget `handle_brief` passes to `create_agent`. -/
def briefMaxStep : Nat := 10

/-- One `ToolCallingAgent.run` call as issued by the legacy repl: the
running agent's step budget, the user turns already in that agent's memory,
the text run, and the reset flag. -/
structure AgentRun where
  maxSteps : Nat
  context : List String
  text : String
  reset : Bool
deriving DecidableEq, Repr

/-- Per-turn state of the legacy repl: the current normal agent's
conversational memory and the fixed operation roster. -/
structure ReplState where
  agentMemory : List String
  tools : List String
deriving DecidableEq, Repr

/-- The `TOOLS` roster of src/agent.py. -/
def TOOLS : List String :=
  ["create_events", "check_events", "get_weather", "news_report",
    "outlook_important_emails", "get_finviz_market_updates"]

def purgeKeywords : List String := ["purge", "reset", "clear", "restart"]

/-- Everything observable about one legacy-repl iteration. -/
structure ReplStep where
  state : ReplState
  runs : List AgentRun
  exits : Bool
deriving DecidableEq, Repr

/-- One iteration of `agent.repl` (src/agent.py) on a non-empty stripped
line.  The branch structure mirrors the source exactly: the `brief` test is
an `if` of its own (no `continue`), the purge-keyword test rebuilds the
normal agent and continues, the exit test breaks, and its `else` — the
regular branch — runs the current agent without reset.  `handle_brief`
builds a fresh agent on the brief prompt with the elevated budget and runs
the literal text with `reset=True`. -/
def replTurn (user_msg : String) (st : ReplState) : ReplStep :=
  let low := pyLower user_msg
  let briefRuns : List AgentRun :=
    if low = "brief" then [⟨briefMaxStep, [], "brief", true⟩] else []
  if low ∈ purgeKeywords then
    ⟨⟨[], st.tools⟩, briefRuns, false⟩
  else if low ∈ exitKeywords then
    ⟨st, briefRuns, true⟩
  else
    ⟨⟨st.agentMemory ++ [user_msg], st.tools⟩,
      briefRuns ++ [⟨defaultMaxStep, st.agentMemory, user_msg, false⟩], false⟩

/-! ## Specification-level definitions and shape predicates -/

/-- `YYYY-MM-DD`: ten characters, digits everywhere but the two dashes. -/
def isDateShape (s : String) : Bool :=
  match s.toList with
  | [a, b, c, d, e, f, g, h, i, j] =>
      [a, b, c, d, f, g, i, j].all Char.isDigit && e = '-' && h = '-'
  | _ => false

/-- `HH:MM`: five characters, digits around the colon. -/
def isTimeShape (s : String) : Bool :=
  match s.toList with
  | [a, b, c, d, e] => [a, b, d, e].all Char.isDigit && c = ':'
  | _ => false

/-- Midnight of a civil date, carrying the UTC offset. -/
def midnightUtc (d : Date) : PyDateTime :=
  ⟨d, 0, 0, 0, some 0⟩

/-- The structured-object unwrapping of a time-of-day-like input, as the
specification words it: the first present key of the ordered preference
list supplies the string, a raw string passes through, nothing usable
gives the empty string. -/
def unwrapTimeLike : Option DateInput → Option String
  | none => none
  | some (.ofString s) => some s
  | some (.ofDict entries) =>
      some ((firstUsableKey entries ["time", "iso_datetime", "datetime", "iso"]).getD "")

/-- The amended wording of the hour extraction: unwrap, trim, reject blank,
take the substring after the time separator, parse the leading
colon-separated field as an integer — with no 0–23 range check — and let
every parse failure yield the unspecified-hour marker. -/
def extractHourSpec (raw : Option DateInput) : Option Int :=
  match unwrapTimeLike raw with
  | none => none
  | some s =>
      let t := pyStrip s
      if t = "" then none
      else
        let afterSep :=
          match afterChar 'T' t.toList with
          | some rest => String.mk rest
          | none => t
        pyIntOfString (String.mk (beforeChar ':' afterSep.toList))

/-! ## Concrete fixtures used by the witness theorems -/

/-- Synthetic Graph batch of the mail-scoring scenario: two high-importance
messages received the same day three hours apart, one unread focused
message, and two old read low-importance messages. -/
def mailHigh1 : GraphMessage :=
  ⟨some "h1", none, some "2025-11-18T10:00:00Z", some "high", some true, some "focused", none, none⟩

def mailHigh2 : GraphMessage :=
  ⟨some "h2", none, some "2025-11-18T13:00:00Z", some "high", some true, some "focused", none, none⟩

def mailUnread : GraphMessage :=
  ⟨some "u", none, some "2025-11-17T09:00:00Z", some "normal", some false, some "focused", none, none⟩

def mailOld1 : GraphMessage :=
  ⟨some "o1", none, some "2025-11-10T09:00:00Z", some "low", some true, some "other", none, none⟩

def mailOld2 : GraphMessage :=
  ⟨some "o2", none, some "2025-11-11T09:00:00Z", some "low", some true, some "other", none, none⟩

/-- The batch in the newest-first order Graph returns. -/
def mailBatch : List GraphMessage :=
  [mailHigh2, mailHigh1, mailUnread, mailOld1, mailOld2]

/-- `datetime.now(timezone.utc)` of the scenario, in epoch seconds. -/
def mailNow : Int :=
  PyDateTime.epochSeconds ⟨⟨2025, 11, 18⟩, 15, 0, 0, some 0⟩

/-- A concrete resolver environment: Vienna at a fixed +60-minute offset, a
clock pinned to 2025-12-01, and a `dateparser` that resolves exactly the
word `tomorrow` one day past its relative base. -/
def testResolverEnv : ResolverEnv where
  zoneInfo := fun name =>
    if name = "Europe/Vienna" then .ok 60 else .error "No time zone found"
  fromIso := fun s =>
    match parseIsoDateTime s with
    | some d => .ok d
    | none => .error "Invalid isoformat string"
  nowIn := fun off => ⟨⟨2025, 12, 1⟩, 9, 30, 0, some off⟩
  dateparse := fun e b => if e = "tomorrow" then some (b.addDays 1) else none

def newsWorldItem : NewsItem := ⟨some "w1", some "wl", none, none, none⟩

def newsLocalItem : NewsItem := ⟨some "v1", some "vl", none, none, none⟩

def newsArticleStub : ArticleOut := ⟨true, "text"⟩

/-- Both sections up. -/
def newsEnvBothUp : NewsEnv :=
  ⟨fun _ _ => .ok [newsLocalItem], fun _ => .ok [newsWorldItem], fun _ _ => .ok newsArticleStub⟩

/-- World headline fetch down, local search up. -/
def newsEnvWorldDown : NewsEnv :=
  ⟨fun _ _ => .ok [newsLocalItem], fun _ => .error "rss boom", fun _ _ => .ok newsArticleStub⟩

/-- World up, local search down. -/
def newsEnvLocalDown : NewsEnv :=
  ⟨fun _ _ => .error "serper boom", fun _ => .ok [newsWorldItem], fun _ _ => .ok newsArticleStub⟩

/-- Both sections down. -/
def newsEnvBothDown : NewsEnv :=
  ⟨fun _ _ => .error "serper boom", fun _ => .error "rss boom", fun _ _ => .ok newsArticleStub⟩

/-! ## Format lemmas -/

theorem digit_isDigit (n : Nat) : (digit n).isDigit = true := by
  have h : n % 10 < 10 := Nat.mod_lt _ (by norm_num)
  unfold digit
  interval_cases h2 : (n % 10) <;> decide

theorem iso_toList (d : Date) : (d.iso).toList =
    [digit (d.year.toNat / 1000), digit (d.year.toNat / 100), digit (d.year.toNat / 10),
      digit d.year.toNat, '-', digit (d.month.toNat / 10), digit d.month.toNat, '-',
      digit (d.day.toNat / 10), digit d.day.toNat] := by
  simp [Date.iso, pad4, pad2, String.toList]

theorem isDateShape_iso (d : Date) : isDateShape d.iso = true := by
  unfold isDateShape
  rw [iso_toList]
  simp [digit_isDigit]

theorem hhmm_toList (dt : PyDateTime) : (dt.hhmm).toList =
    [digit (dt.hour.toNat / 10), digit dt.hour.toNat, ':',
      digit (dt.minute.toNat / 10), digit dt.minute.toNat] := by
  simp [PyDateTime.hhmm, pad2, String.toList]

theorem isTimeShape_hhmm (dt : PyDateTime) : isTimeShape dt.hhmm = true := by
  unfold isTimeShape
  rw [hhmm_toList]
  simp [digit_isDigit]

theorem isoSeconds_decomp (dt : PyDateTime) :
    dt.isoSeconds = dt.date.iso ++ "T" ++ dt.hhmm ++ ":" ++ pad2 dt.second.toNat ++
      offsetSuffix dt.utcOffsetMinutes := by
  simp [PyDateTime.isoSeconds, PyDateTime.hhmm, String.append_assoc]

theorem midnightUtc_iso (d : Date) :
    (midnightUtc d).isoSeconds = d.iso ++ "T00:00:00+00:00" := by
  simp [midnightUtc, PyDateTime.isoSeconds, String.append_assoc, offsetSuffix, pad2, digit]

/-! ## Claim theorems -/

/-- Claim C3 — integer-like coercion is total and never raises: both
`_to_int` and `_to_int_with_default` agree, on every input value and
default, with the specification's description — an already-numeric value
truncates to an integer, a string keeps its digit run and parses it, a
digit-free string and every other unparsable value yield the supplied
default. -/
theorem integer_coercion_total_matches_spec (v : PyVal) (d : Int) :
    _to_int v d = intCoercionSpec v d ∧ _to_int_with_default v d = intCoercionSpec v d := by
  cases v <;> simp [_to_int, _to_int_with_default, intCoercionSpec, pyIntOfVal]

/-- Claim C8 (amended) — the hour extraction unwraps a structured object by
the ordered key preference, takes the substring after the time separator,
and parses the leading colon-separated field as an integer with no 0–23
range validation; every parse failure yields the unspecified-hour marker. -/
theorem extract_hour_matches_amended_spec (raw : Option DateInput) :
    Weather._extract_hour raw = extractHourSpec raw := by
  cases raw with
  | none => rfl
  | some di => cases di <;> rfl

/-- Claim C8, counterexample — the claim's assertion that the parsed hour
lies in 0–23 fails: the time-of-day string `25:00` extracts the hour 25. -/
theorem extract_hour_accepts_out_of_range_value :
    Weather._extract_hour (some (.ofString "25:00")) = some 25 ∧ ¬((25 : Int) ≤ 23) := by
  decide

/-- Claim C9 (amended) — in the legacy repl (src/agent.py) an utterance
whose case-folded form is a reset keyword clears the supervisor agent's
turn history, performs no Controller Runtime invocation, and leaves the
operation roster unchanged. -/
theorem legacy_repl_reset_keywords_clear_without_runtime
    (msg : String) (st : ReplState) (h : pyLower msg ∈ purgeKeywords) :
    replTurn msg st = ⟨⟨[], st.tools⟩, [], false⟩ := by
  have hb : pyLower msg ≠ "brief" := by
    simp [purgeKeywords] at h
    rcases h with h | h | h | h <;> simp [h]
  simp [replTurn, hb, h]

/-- Claim C9, witness — the reset keyword `Reset` at a non-empty session. -/
theorem legacy_repl_reset_keywords_check :
    replTurn "Reset" ⟨["earlier turn"], TOOLS⟩ = ⟨⟨[], TOOLS⟩, [], false⟩ :=
  legacy_repl_reset_keywords_clear_without_runtime "Reset" ⟨["earlier turn"], TOOLS⟩
    (by decide)

/-- Claim C9, counterexample — the Langford CLI repl has no reset keywords:
`purge` is forwarded to `run_langford`, which invokes the Controller
Runtime with the literal text and no session reset. -/
theorem cli_repl_forwards_purge_to_runtime :
    cliTurn "purge" = some ⟨"purge", false, butlerMaxSteps⟩ ∧
    (run_langford "purge").reset = false ∧ (run_langford "purge").query = "purge" := by
  decide

/-- Claim C4, failing-input evaluation — `run_langford` substitutes the
canned brief request with a reset (at its constant step budget), but the
legacy repl's `brief` branch lacks a `continue`: after the elevated-budget
reset run on the fresh brief agent, the turn falls through to the regular
branch and also runs the literal `brief` on the normal agent with
`reset=False`, the prior turn still in that run's context. -/
theorem brief_keyword_falls_through_to_normal_run :
    run_langford "brief" = ⟨briefQuery, true, butlerMaxSteps⟩ ∧
    replTurn "brief" ⟨["earlier turn"], TOOLS⟩ =
      ⟨⟨["earlier turn", "brief"], TOOLS⟩,
        [⟨briefMaxStep, [], "brief", true⟩,
          ⟨defaultMaxStep, ["earlier turn"], "brief", false⟩], false⟩ := by
  decide

/-- Claim C1, failing-input evaluation — on the specification's synthetic
batch (two high-importance focused messages three hours apart, one unread
focused message, two old read low-importance messages; `days_back=3`,
`max_emails=2`) the two zero-relevance old messages are excluded and the
two top-scoring messages are returned — but the equal-score pair comes
back in ascending `receivedDateTime` order (the 10:00 message before the
13:00 one), not the descending recency the claim and the code's own
comment state. -/
theorem check_mails_sorts_ties_oldest_first :
    (check_mails (.ok mailBatch) mailNow (.vint 2) (.vint 3)).emails.map
        (fun e => (e.subject, e.score, e.receivedDateTime)) =
      [(some "h1", 5, "2025-11-18T10:00:00Z"), (some "h2", 5, "2025-11-18T13:00:00Z")] ∧
    (check_mails (.ok mailBatch) mailNow (.vint 2) (.vint 3)).total_checked = 5 ∧
    (check_mails (.ok mailBatch) mailNow (.vint 2) (.vint 3)).total_returned = 2 ∧
    strLt "2025-11-18T10:00:00Z" "2025-11-18T13:00:00Z" = true := by
  decide

/-- Claim C5 — for a valid start date `d`, the `check_events` query window
is the UTC-midnight interval from `d` to `d+1` day when `end_date` is
omitted; a given end date `e ≥ d` widens it to `e+1` day (inclusive
range); and an end date equal to the start date queries exactly the
single-day window. -/
theorem check_events_inclusive_day_window
    (inp : DateInput) (s : String) (d : Date)
    (hnorm : _normalize_date_input (some inp) = some s)
    (hparse : parseIsoDateTime s = some ⟨d, 0, 0, 0, none⟩) :
    (check_events (some inp) none =
      .request (midnightUtc d).isoSeconds (midnightUtc (d.addDays 1)).isoSeconds
        (midnightUtc d) (midnightUtc (d.addDays 1))) ∧
    (∀ (einp : DateInput) (es : String) (e : Date),
      _normalize_date_input (some einp) = some es →
      parseIsoDateTime es = some ⟨e, 0, 0, 0, none⟩ →
      daysFromCivil d ≤ daysFromCivil e →
      check_events (some inp) (some einp) =
        .request (midnightUtc d).isoSeconds (midnightUtc (e.addDays 1)).isoSeconds
          (midnightUtc d) (midnightUtc (e.addDays 1))) ∧
    check_events (some inp) (some inp) = check_events (some inp) none := by
  refine ⟨?_, ?_, ?_⟩
  · simp [check_events, hnorm, hparse, PyDateTime.replaceTz, PyDateTime.addDays, midnightUtc,
      Date.addDays]
  · intro einp es e hn he _
    simp [check_events, hnorm, hparse, hn, he, PyDateTime.replaceTz, PyDateTime.addDays,
      midnightUtc, Date.addDays]
  · simp [check_events, hnorm, hparse, PyDateTime.replaceTz, PyDateTime.addDays]

/-- Claim C5, witness — a range query over 2025-12-05 with the end equal to
the start returns the single-day window up to, exclusively, 2025-12-06. -/
theorem check_events_inclusive_day_window_check :
    (0 : Int) ≤ 0 ∧
    check_events (some (.ofString "2025-12-05")) (some (.ofString "2025-12-05")) =
      .request "2025-12-05T00:00:00+00:00" "2025-12-06T00:00:00+00:00"
        ⟨⟨2025, 12, 5⟩, 0, 0, 0, some 0⟩ ⟨⟨2025, 12, 6⟩, 0, 0, 0, some 0⟩ := by
  have h := check_events_inclusive_day_window (.ofString "2025-12-05") "2025-12-05"
    ⟨2025, 12, 5⟩ (by decide) (by decide)
  exact ⟨le_refl 0, (h.2.2.trans h.1).trans (by decide)⟩

/-- Claim C10 — the `check_events` window is anchored at midnight UTC: for
a valid start date the query bounds are the date's and the following (or
end-date-following) day's `T00:00:00+00:00` instants, with the `+00:00`
offset attached by the `tzinfo` replacement; the configured Europe/Vienna
timezone plays no role in the window. -/
theorem check_events_window_anchored_at_utc_midnight
    (inp : DateInput) (s : String) (d : Date)
    (hnorm : _normalize_date_input (some inp) = some s)
    (hparse : parseIsoDateTime s = some ⟨d, 0, 0, 0, none⟩) :
    (check_events (some inp) none =
      .request (d.iso ++ "T00:00:00+00:00") ((d.addDays 1).iso ++ "T00:00:00+00:00")
        ⟨d, 0, 0, 0, some 0⟩ ⟨d.addDays 1, 0, 0, 0, some 0⟩) ∧
    (∀ (einp : DateInput) (es : String) (e : Date),
      _normalize_date_input (some einp) = some es →
      parseIsoDateTime es = some ⟨e, 0, 0, 0, none⟩ →
      check_events (some inp) (some einp) =
        .request (d.iso ++ "T00:00:00+00:00") ((e.addDays 1).iso ++ "T00:00:00+00:00")
          ⟨d, 0, 0, 0, some 0⟩ ⟨e.addDays 1, 0, 0, 0, some 0⟩) := by
  constructor
  · have h1 : check_events (some inp) none =
        .request (midnightUtc d).isoSeconds (midnightUtc (d.addDays 1)).isoSeconds
          (midnightUtc d) (midnightUtc (d.addDays 1)) := by
      simp [check_events, hnorm, hparse, PyDateTime.replaceTz, PyDateTime.addDays, midnightUtc,
        Date.addDays]
    rw [h1, midnightUtc_iso, midnightUtc_iso]
    rfl
  · intro einp es e hn he
    have h2 : check_events (some inp) (some einp) =
        .request (midnightUtc d).isoSeconds (midnightUtc (e.addDays 1)).isoSeconds
          (midnightUtc d) (midnightUtc (e.addDays 1)) := by
      simp [check_events, hnorm, hparse, hn, he, PyDateTime.replaceTz, PyDateTime.addDays,
        midnightUtc, Date.addDays]
    rw [h2, midnightUtc_iso, midnightUtc_iso]
    rfl

/-- Claim C10, witness — querying 2025-12-31 yields UTC midnights across
the year boundary. -/
theorem check_events_window_anchored_at_utc_midnight_check :
    check_events (some (.ofString "2025-12-31")) none =
      .request "2025-12-31T00:00:00+00:00" "2026-01-01T00:00:00+00:00"
        ⟨⟨2025, 12, 31⟩, 0, 0, 0, some 0⟩ ⟨⟨2026, 1, 1⟩, 0, 0, 0, some 0⟩ := by
  have h := (check_events_window_anchored_at_utc_midnight (.ofString "2025-12-31")
    "2025-12-31" ⟨2025, 12, 31⟩ (by decide) (by decide)).1
  exact h.trans (by decide)

/-- Claim C6 — an all-day `create_events` call with no explicit end sets
the event's end date to the start date plus one day, the exclusive
next-day convention. -/
theorem create_events_all_day_default_end
    (off : Int) (inp : DateInput) (all_day dur : PyVal) (s : String) (sdt : PyDateTime)
    (hday : _to_bool all_day = true)
    (hs : _extract_date_str inp = s)
    (hparse : parseIsoDateTime s = some sdt) :
    create_events off inp none all_day dur =
      .request (.onDate sdt.date.iso) (.onDate (sdt.date.addDays 1).iso) := by
  have hs0 : s ≠ "" := by
    intro h0
    rw [h0] at hparse
    have hnone : parseIsoDateTime "" = none := by decide
    rw [hnone] at hparse
    cases hparse
  simp [create_events, hday, hs, hs0, hparse, Date.addDays]

/-- Claim C6, witness — an all-day item for 2025-12-05 with no end gets the
end boundary 2025-12-06. -/
theorem create_events_all_day_default_end_check :
    _to_bool (.vbool true) = true ∧
    create_events 60 (.ofString "2025-12-05") none (.vbool true) (.vint 60) =
      .request (.onDate "2025-12-05") (.onDate "2025-12-06") := by
  have h := create_events_all_day_default_end 60 (.ofString "2025-12-05") (.vbool true)
    (.vint 60) "2025-12-05" ⟨⟨2025, 12, 5⟩, 0, 0, 0, none⟩ (by decide) (by decide) (by decide)
  exact ⟨by decide, h.trans (by decide)⟩

/-- Claim C2 — the resolver never aborts its caller: an empty or
whitespace-only expression, an unknown timezone name, an unparsable anchor
and an unparsable expression each produce an `ok=false` result carrying its
own distinct error tag (`empty_expression`, `invalid_timezone`,
`invalid_now_iso`, `could_not_parse`), and every success produces
`ok=true` with the ISO datetime at seconds precision, the date as
`YYYY-MM-DD` and the time as `HH:MM`. -/
theorem resolver_failure_tags_and_success_format
    (env : ResolverEnv) (expression : String) (now_iso : Option String) (tzname : String) :
    (pyStrip expression = "" →
      resolve_date_expression env expression now_iso tzname =
        ⟨false, some "empty_expression", none, none, none, tzname, expression⟩) ∧
    (∀ m, pyStrip expression ≠ "" → env.zoneInfo tzname = .error m →
      resolve_date_expression env expression now_iso tzname =
        ⟨false, some ("invalid_timezone: " ++ m), none, none, none, tzname,
          pyStrip expression⟩) ∧
    (∀ tz m, pyStrip expression ≠ "" → env.zoneInfo tzname = .ok tz →
      resolverAnchor env now_iso tz = .error m →
      resolve_date_expression env expression now_iso tzname =
        ⟨false, some ("invalid_now_iso: " ++ m), none, none, none, tzname,
          pyStrip expression⟩) ∧
    (∀ tz b, pyStrip expression ≠ "" → env.zoneInfo tzname = .ok tz →
      resolverAnchor env now_iso tz = .ok b →
      env.dateparse (pyStrip expression) b = none →
      resolve_date_expression env expression now_iso tzname =
        ⟨false, some "could_not_parse", none, none, none, tzname, pyStrip expression⟩) ∧
    (∀ tz b p, pyStrip expression ≠ "" → env.zoneInfo tzname = .ok tz →
      resolverAnchor env now_iso tz = .ok b →
      env.dateparse (pyStrip expression) b = some p →
      resolve_date_expression env expression now_iso tzname =
        ⟨true, none, some (p.astimezone tz).isoSeconds, some (p.astimezone tz).date.iso,
          some (p.astimezone tz).hhmm, tzname, pyStrip expression⟩ ∧
      isDateShape (p.astimezone tz).date.iso = true ∧
      isTimeShape (p.astimezone tz).hhmm = true ∧
      (p.astimezone tz).isoSeconds =
        (p.astimezone tz).date.iso ++ "T" ++ (p.astimezone tz).hhmm ++ ":" ++
          pad2 (p.astimezone tz).second.toNat ++
          offsetSuffix (p.astimezone tz).utcOffsetMinutes) := by
  refine ⟨?_, ?_, ?_, ?_, ?_⟩
  · intro h
    simp [resolve_date_expression, h]
  · intro m h hz
    simp [resolve_date_expression, h, hz]
  · intro tz m h hz ha
    simp [resolve_date_expression, h, hz, ha]
  · intro tz b h hz ha hp
    simp [resolve_date_expression, h, hz, ha, hp]
  · intro tz b p h hz ha hp
    refine ⟨by simp [resolve_date_expression, h, hz, ha, hp], isDateShape_iso _,
      isTimeShape_hhmm _, isoSeconds_decomp _⟩

/-- Claim C2, witness — all five branches exercised against the concrete
resolver environment: the four failure tags and a success resolving
`tomorrow` from the anchor 2025-12-01T10:00:00 in Europe/Vienna. -/
theorem resolver_failure_tags_check :
    resolve_date_expression testResolverEnv "   " none "Europe/Vienna" =
      ⟨false, some "empty_expression", none, none, none, "Europe/Vienna", "   "⟩ ∧
    resolve_date_expression testResolverEnv "tomorrow" none "Mars/Olympus" =
      ⟨false, some "invalid_timezone: No time zone found", none, none, none,
        "Mars/Olympus", "tomorrow"⟩ ∧
    resolve_date_expression testResolverEnv "tomorrow" (some "garbage") "Europe/Vienna" =
      ⟨false, some "invalid_now_iso: Invalid isoformat string", none, none, none,
        "Europe/Vienna", "tomorrow"⟩ ∧
    resolve_date_expression testResolverEnv "blorp" none "Europe/Vienna" =
      ⟨false, some "could_not_parse", none, none, none, "Europe/Vienna", "blorp"⟩ ∧
    resolve_date_expression testResolverEnv "tomorrow" (some "2025-12-01T10:00:00")
        "Europe/Vienna" =
      ⟨true, none, some "2025-12-02T10:00:00+01:00", some "2025-12-02", some "10:00",
        "Europe/Vienna", "tomorrow"⟩ := by
  refine ⟨?_, ?_, ?_, ?_, ?_⟩
  · exact ((resolver_failure_tags_and_success_format testResolverEnv "   " none
      "Europe/Vienna").1 (by decide)).trans (by decide)
  · exact ((resolver_failure_tags_and_success_format testResolverEnv "tomorrow" none
      "Mars/Olympus").2.1 "No time zone found" (by decide) rfl).trans (by decide)
  · exact ((resolver_failure_tags_and_success_format testResolverEnv "tomorrow"
      (some "garbage") "Europe/Vienna").2.2.1 60 "Invalid isoformat string" (by decide)
      rfl rfl).trans (by decide)
  · exact ((resolver_failure_tags_and_success_format testResolverEnv "blorp" none
      "Europe/Vienna").2.2.2.1 60 ⟨⟨2025, 12, 1⟩, 9, 30, 0, some 60⟩ (by decide) rfl
      rfl rfl).trans (by decide)
  · exact (((resolver_failure_tags_and_success_format testResolverEnv "tomorrow"
      (some "2025-12-01T10:00:00") "Europe/Vienna").2.2.2.2 60
      ⟨⟨2025, 12, 1⟩, 10, 0, 0, some 60⟩ ⟨⟨2025, 12, 2⟩, 10, 0, 0, some 60⟩ (by decide)
      rfl rfl rfl).1).trans (by decide)

/-- Claim C7 — in the aggregate daily-brief mode (no query, no url) each
section degrades independently: a failed world fetch leaves an empty world
sub-list and a `world` entry in the per-section error map without touching
a successful local sub-list, and symmetrically; nothing escapes the
operation as a fault. -/
theorem news_report_daily_brief_partial_degradation
    (env : NewsEnv) (location : Option String) (wn ln mc aa : PyVal) :
    (∀ e ls, env.googleRss (_to_int wn 5) = .error e →
      env.serperNews (localNewsQuery location) (_to_int ln 5) = .ok ls →
      news_report env none location none wn ln mc aa =
        .dailyBrief location [] ls [("world", e)]) ∧
    (∀ ws e, env.googleRss (_to_int wn 5) = .ok ws →
      env.serperNews (localNewsQuery location) (_to_int ln 5) = .error e →
      news_report env none location none wn ln mc aa =
        .dailyBrief location ws [] [("local", e)]) ∧
    (∀ ws ls, env.googleRss (_to_int wn 5) = .ok ws →
      env.serperNews (localNewsQuery location) (_to_int ln 5) = .ok ls →
      news_report env none location none wn ln mc aa =
        .dailyBrief location ws ls []) ∧
    (∀ ew el, env.googleRss (_to_int wn 5) = .error ew →
      env.serperNews (localNewsQuery location) (_to_int ln 5) = .error el →
      news_report env none location none wn ln mc aa =
        .dailyBrief location [] [] [("world", ew), ("local", el)]) := by
  refine ⟨?_, ?_, ?_, ?_⟩ <;> intro x y hw hl <;> simp [news_report, hw, hl]

/-- Claim C7, witness — all four availability combinations evaluated on the
concrete environments. -/
theorem news_report_daily_brief_partial_degradation_check :
    news_report newsEnvWorldDown none (some "Vienna, Austria") none =
      .dailyBrief (some "Vienna, Austria") [] [newsLocalItem] [("world", "rss boom")] ∧
    news_report newsEnvLocalDown none (some "Vienna, Austria") none =
      .dailyBrief (some "Vienna, Austria") [newsWorldItem] [] [("local", "serper boom")] ∧
    news_report newsEnvBothUp none (some "Vienna, Austria") none =
      .dailyBrief (some "Vienna, Austria") [newsWorldItem] [newsLocalItem] [] ∧
    news_report newsEnvBothDown none (some "Vienna, Austria") none =
      .dailyBrief (some "Vienna, Austria") [] []
        [("world", "rss boom"), ("local", "serper boom")] := by
  refine ⟨?_, ?_, ?_, ?_⟩
  · exact (news_report_daily_brief_partial_degradation newsEnvWorldDown
      (some "Vienna, Austria") (.vint 5) (.vint 5) (.vint 12000) (.vbool false)).1
      "rss boom" [newsLocalItem] rfl rfl
  · exact (news_report_daily_brief_partial_degradation newsEnvLocalDown
      (some "Vienna, Austria") (.vint 5) (.vint 5) (.vint 12000) (.vbool false)).2.1
      [newsWorldItem] "serper boom" rfl rfl
  · exact (news_report_daily_brief_partial_degradation newsEnvBothUp
      (some "Vienna, Austria") (.vint 5) (.vint 5) (.vint 12000) (.vbool false)).2.2.1
      [newsWorldItem] [newsLocalItem] rfl rfl
  · exact (news_report_daily_brief_partial_degradation newsEnvBothDown
      (some "Vienna, Austria") (.vint 5) (.vint 5) (.vint 12000) (.vbool false)).2.2.2
      "rss boom" "serper boom" rfl rfl

end LangFord
